import Mathlib

/-!
Shallow embedding of `app.py` from the subgit repository.

The program parses a GitHub subfolder URL, lists the recursive git tree of a
branch, filters the tree to blobs under the subfolder, fetches each matching
file's raw content concurrently, and writes it under a local root directory.

Modelling choices:
* Network I/O is an oracle: the tree query's outcome is a `TreeResult`
  parameter, and per-file HTTP outcomes are an environment `String → HttpResult`
  from request URL to outcome.  The `connError` constructor stands for the
  `aiohttp.ClientError` / `ClientConnectorError` exceptions; a handler that is
  total over it models the corresponding `except` clause.
* The local filesystem is a map from full path to file content;
  `os.makedirs` only affects directories, which the map does not track.
* Python string primitives (`split`, `strip`, `startswith`, `join`,
  `urlparse().path`) are modelled structurally on the codepoint list
  `String.data`, matching Python's codepoint-wise semantics.
* The `asyncio.gather` of independent per-file tasks is modelled as a left fold
  over the task list; tasks share no state except the progress counter and the
  filesystem, and the single-threaded event loop makes each `process_file`
  body between awaits atomic, so any completion order is some task-list order
  and the theorems quantify over the task list.
* `tqdm` progress is the natural-number field `progress`; `print` diagnostics
  accumulate in `logs`.
-/

namespace Subgit

/-- `charsLead pre s`: the codepoint list `pre` leads the codepoint list `s`. -/
def charsLead : List Char → List Char → Bool
  | [], _ => true
  | _ :: _, [] => false
  | p :: ps, c :: cs => p == c && charsLead ps cs

/-- Python `str.startswith`: `pyStartswith s pre` models `s.startswith(pre)`. -/
def pyStartswith (s pre : String) : Bool :=
  charsLead pre.data s.data

/-- Python `s.strip("/")`: remove leading and trailing `/` characters. -/
def stripSlash (s : List Char) : List Char :=
  ((s.dropWhile (fun c => c == '/')).reverse.dropWhile (fun c => c == '/')).reverse

/-- Python `s.split("/")`, accumulating the current segment in reverse. -/
def splitSlashGo (cur : List Char) : List Char → List String
  | [] => [String.mk cur.reverse]
  | c :: cs =>
      if c == '/' then String.mk cur.reverse :: splitSlashGo [] cs
      else splitSlashGo (c :: cur) cs

/-- Python `s.split("/")`. -/
def splitSlash (s : List Char) : List String :=
  splitSlashGo [] s

/-- Python `"/".join(parts)`. -/
def joinSlash : List String → String
  | [] => ""
  | [p] => p
  | p :: ps => p ++ "/" ++ joinSlash ps

/-- Everything after the first `://`, if any. -/
def afterSchemeSep : List Char → Option (List Char)
  | ':' :: '/' :: '/' :: rest => some rest
  | _ :: rest => afterSchemeSep rest
  | [] => none

/-- The `path` component of `urllib.parse.urlparse`, modelled for the URL
shapes this tool accepts: `scheme://host/path...` with no query or fragment.
A string without the `://` separator is taken as a bare path. -/
def urlPathChars (cs : List Char) : List Char :=
  match afterSchemeSep cs with
  | none => cs
  | some rest => rest.dropWhile (fun c => c != '/')

/-- `parsed_url.path.strip('/').split('/')` from `parse_github_url`. -/
def path_parts (url : String) : List String :=
  splitSlash (stripSlash (urlPathChars url.data))

/-- The uncaught Python exception raised by `parse_github_url` on a URL with
too few path segments (the spec's `MalformedURLError`). -/
inductive URLError where
  | indexError
deriving DecidableEq

/-- Core of `parse_github_url` on the split path: Python reads indices 0, 1
and 3 (an `IndexError` escapes if any is missing), skips index 2 (the literal
`tree` marker) and joins the remaining segments as the subfolder. -/
def parse_from_parts (ps : List String) : Except URLError (String × String × String) :=
  match ps[0]?, ps[1]?, ps[3]? with
  | some p0, some p1, some b =>
      .ok (p0 ++ "/" ++ p1, b, joinSlash (ps.drop 4))
  | _, _, _ => .error .indexError

/-- `parse_github_url(url)` returning `(reponame, branch, subfolder)`. -/
def parse_github_url (url : String) : Except URLError (String × String × String) :=
  parse_from_parts (path_parts url)

/-- Outcome of one HTTP GET: a response with status and text body, or a
transport-level failure (`aiohttp` client exception). -/
inductive HttpResult where
  | response (status : Nat) (body : String)
  | connError (msg : String)
deriving DecidableEq

/-- Status of an HTTP outcome, `none` on a transport failure. -/
def httpStatus : HttpResult → Option Nat
  | .response s _ => some s
  | .connError _ => none

/-- Raw-content URL built in `get_file_content`. -/
def raw_url (reponame branch filepath : String) : String :=
  "https://raw.githubusercontent.com/" ++ reponame ++ "/refs/heads/" ++ branch
    ++ "/" ++ filepath

/-- Tree-listing URL built in `fetch_files`. -/
def tree_url (reponame branch : String) : String :=
  "https://api.github.com/repos/" ++ reponame ++ "/git/trees/" ++ branch
    ++ "?recursive=1"

/-- `get_file_content`, given the outcome of its single GET on `url`: returns
the body on status 200, otherwise `None` plus a printed diagnostic.  Totality
over `HttpResult.connError` models the two `except` clauses (the
`ClientConnectorError` clause is shadowed by the `ClientError` one, a subclass
relation that does not change the result: `None` plus a diagnostic). -/
def get_file_content (url : String) (r : HttpResult) : Option String × List String :=
  match r with
  | .response status body =>
      if status = 200 then (some body, [])
      else (none, ["Error " ++ toString status ++ " for " ++ url])
  | .connError e => (none, ["Error fetching " ++ url ++ ": " ++ e])

/-- One entry of the JSON tree: its `path` and `type` fields. -/
structure TreeEntry where
  path : String
  type : String
deriving DecidableEq

/-- The filter in `fetch_files`:
`[item for item in tree if item['path'].startswith(subfolder) and item['type'] == 'blob']`. -/
def files_to_fetch (subfolder : String) (tree : List TreeEntry) : List TreeEntry :=
  tree.filter (fun item => pyStartswith item.path subfolder && item.type == "blob")

/-- The local filesystem as a map from full path to content. -/
def FileSystem := String → Option String

/-- Writing a file: overwrite whatever is at that path. -/
def fsWrite (fs : FileSystem) (p c : String) : FileSystem :=
  fun q => if q = p then some c else fs q

/-- Reading a file back. -/
def fsRead (fs : FileSystem) (p : String) : Option String :=
  fs p

/-- `os.path.join` for two POSIX components, as the code uses it. -/
def os_path_join (a b : String) : String :=
  if pyStartswith b "/" then b
  else if a = "" ∨ charsLead ['/'] a.data.reverse then a ++ b
  else a ++ "/" ++ b

/-- `save_file_content`: join root and path, create directories (not tracked
by the map), open in write mode and write the content. -/
def save_file_content (root_dir : String) (fs : FileSystem)
    (filepath content : String) : FileSystem :=
  fsWrite fs (os_path_join root_dir filepath) content

/-- The constructor arguments of `GithubFetcher` the claims depend on
(`verify_ssl` and `pat_token` only shape the requests, which the network
oracle already abstracts). -/
structure FetchConfig where
  reponame : String
  branch : String
  subfolder : String
  root_dir : String
deriving DecidableEq

/-- Mutable effects of the run: files on disk, the progress counter, and the
printed diagnostics. -/
structure FetchState where
  fs : FileSystem
  progress : Nat
  logs : List String

/-- `process_file`: fetch the content; persist it only when Python finds it
truthy (not `None` and not the empty string); always advance the progress
bar by one. -/
def process_file (cfg : FetchConfig) (env : String → HttpResult)
    (st : FetchState) (item : TreeEntry) : FetchState :=
  let url := raw_url cfg.reponame cfg.branch item.path
  let res := get_file_content url (env url)
  let fs' :=
    match res.1 with
    | some c =>
        if c = "" then st.fs
        else save_file_content cfg.root_dir st.fs item.path c
    | none => st.fs
  { fs := fs', progress := st.progress + 1, logs := st.logs ++ res.2 }

/-- Outcome of the tree-listing GET in `fetch_files`. -/
inductive TreeResult where
  | response (status : Nat) (tree : List TreeEntry)
  | connError (msg : String)
deriving DecidableEq

/-- The tree query failed: non-200 status or transport failure. -/
def treeFails : TreeResult → Bool
  | .response s _ => s != 200
  | .connError _ => true

/-- Result of `fetch_files`: the fetch tasks that were dispatched and the
final effects. -/
structure FetchRun where
  tasks : List TreeEntry
  state : FetchState

/-- `fetch_files`: on a 200 tree response, filter, report "no files" when
nothing matches, otherwise dispatch one `process_file` task per match and
await them all; on a non-200 status or a client exception, print a diagnostic
and return normally (the `try`/`except` wraps the whole body). -/
def fetch_files (cfg : FetchConfig) (treeRes : TreeResult)
    (env : String → HttpResult) (fs0 : FileSystem) : FetchRun :=
  match treeRes with
  | .response status tree =>
      if status = 200 then
        let files := files_to_fetch cfg.subfolder tree
        if files.length = 0 then
          { tasks := []
            state := { fs := fs0, progress := 0
                       logs := ["No files found matching the criteria."] } }
        else
          { tasks := files
            state := files.foldl (process_file cfg env)
              { fs := fs0, progress := 0, logs := [] } }
      else
        { tasks := []
          state := { fs := fs0, progress := 0
                     logs := ["Error " ++ toString status ++ " for "
                               ++ tree_url cfg.reponame cfg.branch] } }
  | .connError e =>
      { tasks := []
        state := { fs := fs0, progress := 0
                   logs := ["Error fetching tree: " ++ e] } }

/-- Observable trace of one whole run of `main`. -/
structure RunTrace where
  /-- `parse_github_url` raised (an uncaught `IndexError`). -/
  urlError : Bool
  /-- the tree-listing GET was issued -/
  treeQueried : Bool
  tasks : List TreeEntry
  fsFinal : FileSystem
  progress : Nat
  logs : List String
  /-- an exception escaped `main`, so the process exits non-zero -/
  unhandled : Bool

/-- `main(url, root_dir, ...)`: parse the URL (an `IndexError` here escapes
and the process dies before any network call), then construct the fetcher and
run `fetch_files`, whose own `try`/`except` keeps every tree failure from
escaping. -/
def run_main (url root_dir : String) (treeRes : TreeResult)
    (env : String → HttpResult) (fs0 : FileSystem) : RunTrace :=
  match parse_github_url url with
  | .error _ =>
      { urlError := true, treeQueried := false, tasks := [], fsFinal := fs0
        progress := 0, logs := [], unhandled := true }
  | .ok (reponame, branch, subfolder) =>
      let cfg : FetchConfig :=
        { reponame := reponame, branch := branch, subfolder := subfolder
          root_dir := root_dir }
      let r := fetch_files cfg treeRes env fs0
      { urlError := false, treeQueried := true, tasks := r.tasks
        fsFinal := r.state.fs, progress := r.state.progress
        logs := r.state.logs, unhandled := false }

/-! ### Concrete fixtures used by the witnesses -/

/-- The tree response from the specification's filter example. -/
def exTree : List TreeEntry :=
  [⟨"src/a.py", "blob"⟩, ⟨"src/lib/b.py", "blob"⟩,
   ⟨"docs/c.md", "blob"⟩, ⟨"src/lib", "tree"⟩]

/-- A concrete fetcher configuration. -/
def exCfg : FetchConfig :=
  { reponame := "acme/widgets", branch := "main", subfolder := "src"
    root_dir := "out" }

/-- Environment where the raw fetch of `src/a.py` fails with 404 and every
other fetch succeeds with body `"hello"`. -/
def exEnv : String → HttpResult := fun u =>
  if u = raw_url "acme/widgets" "main" "src/a.py" then
    HttpResult.response 404 "not found"
  else HttpResult.response 200 "hello"

/-- Environment where every request fails at the transport level. -/
def exEnvDown : String → HttpResult := fun _ =>
  HttpResult.connError "cannot connect"

/-- The empty local filesystem. -/
def fsEmpty : FileSystem := fun _ => none

/-! ### Helper lemmas -/

theorem charsLead_iff_prefix (pre s : List Char) :
    charsLead pre s = true ↔ pre <+: s := by
  induction pre generalizing s with
  | nil => simp [charsLead]
  | cons p ps ih =>
      cases s with
      | nil => simp [charsLead]
      | cons c cs => simp [charsLead, ih, List.cons_prefix_cons]

theorem pyStartswith_iff_prefix (s pre : String) :
    pyStartswith s pre = true ↔ pre.data <+: s.data :=
  charsLead_iff_prefix pre.data s.data

theorem pyStartswith_empty (s : String) : pyStartswith s "" = true := rfl

theorem files_to_fetch_empty_prefix (tree : List TreeEntry) :
    files_to_fetch "" tree = tree.filter (fun i => i.type == "blob") := by
  unfold files_to_fetch
  refine List.filter_congr (fun i _ => ?_)
  rw [pyStartswith_empty i.path, Bool.true_and]

theorem foldl_process_progress (cfg : FetchConfig) (env : String → HttpResult)
    (l : List TreeEntry) : ∀ st : FetchState,
    (l.foldl (process_file cfg env) st).progress = st.progress + l.length := by
  induction l with
  | nil => intro st; simp
  | cons i t ih =>
      intro st
      rw [List.foldl_cons, ih]
      simp [process_file, List.length_cons]
      omega

theorem process_file_fs_other (cfg : FetchConfig) (env : String → HttpResult)
    (st : FetchState) (item : TreeEntry) (p : String)
    (h : os_path_join cfg.root_dir item.path ≠ p) :
    (process_file cfg env st item).fs p = st.fs p := by
  simp only [process_file]
  rcases hres : (get_file_content (raw_url cfg.reponame cfg.branch item.path)
      (env (raw_url cfg.reponame cfg.branch item.path))).1 with _ | c
  · simp [hres]
  · by_cases hc : c = ""
    · simp [hres, hc]
    · simp [hres, hc, save_file_content, fsWrite]
      intro e
      exact absurd e.symm h

theorem foldl_process_fs_other (cfg : FetchConfig) (env : String → HttpResult)
    (p : String) (l : List TreeEntry) : ∀ st : FetchState,
    (∀ i ∈ l, os_path_join cfg.root_dir i.path ≠ p) →
    (l.foldl (process_file cfg env) st).fs p = st.fs p := by
  induction l with
  | nil => intro st _; rfl
  | cons i t ih =>
      intro st h
      rw [List.foldl_cons, ih _ (fun j hj => h j (List.mem_cons_of_mem _ hj)),
        process_file_fs_other cfg env st i p (h i (List.mem_cons_self _ _))]

theorem process_file_read_own (cfg : FetchConfig) (env : String → HttpResult)
    (st : FetchState) (item : TreeEntry) (c : String)
    (henv : env (raw_url cfg.reponame cfg.branch item.path)
      = HttpResult.response 200 c)
    (hc : c ≠ "") :
    (process_file cfg env st item).fs (os_path_join cfg.root_dir item.path)
      = some c := by
  simp [process_file, henv, get_file_content, hc, save_file_content, fsWrite]

/-! ### Claims -/

/-- C1. The tree filter selects exactly the entries whose `type` is `"blob"`
and whose `path` starts with the subfolder; an empty subfolder prefix keeps
every blob; on the spec's example tree with subfolder `"src/lib"`, exactly
`src/lib/b.py` is selected. -/
theorem files_to_fetch_selects_blobs :
    (∀ (sub : String) (tree : List TreeEntry) (item : TreeEntry),
        item ∈ files_to_fetch sub tree ↔
          item ∈ tree ∧ item.type = "blob" ∧ sub.data <+: item.path.data)
    ∧ (∀ tree : List TreeEntry,
        files_to_fetch "" tree = tree.filter (fun i => i.type == "blob"))
    ∧ files_to_fetch "src/lib" exTree = [⟨"src/lib/b.py", "blob"⟩] := by
  refine ⟨?_, files_to_fetch_empty_prefix, rfl⟩
  intro sub tree item
  simp only [files_to_fetch, List.mem_filter, Bool.and_eq_true, beq_iff_eq,
    pyStartswith_iff_prefix]
  tauto

/-- C6. For every URL whose path splits into at least four segments, the
parser returns the first two segments joined with `/`, the segment after the
marker position as the branch, and the rest joined with `/` as the
subfolder. -/
theorem parse_github_url_four_segments (url : String) (o r m b : String)
    (rest : List String) (h : path_parts url = o :: r :: m :: b :: rest) :
    parse_github_url url = .ok (o ++ "/" ++ r, b, joinSlash rest) := by
  unfold parse_github_url parse_from_parts
  rw [h]
  simp [List.getElem?_cons_zero, List.getElem?_cons_succ]

/-- Witness for C6 at the spec's example URL. -/
theorem parse_github_url_four_segments_witness :
    path_parts "https://github.com/acme/widgets/tree/main/src/lib"
        = ["acme", "widgets", "tree", "main", "src", "lib"]
    ∧ parse_github_url "https://github.com/acme/widgets/tree/main/src/lib"
        = .ok ("acme/widgets", "main", "src/lib") :=
  ⟨rfl, parse_github_url_four_segments _ "acme" "widgets" "tree" "main"
    ["src", "lib"] rfl⟩

/-- C7. A URL whose path has fewer than four segments makes the parser fail
with the `IndexError` (the spec's `MalformedURLError`), and the run dies
before the tree query, leaving the filesystem untouched. -/
theorem parse_github_url_too_few_segments (url root_dir : String)
    (treeRes : TreeResult) (env : String → HttpResult) (fs0 : FileSystem)
    (h : (path_parts url).length < 4) :
    parse_github_url url = .error .indexError
    ∧ (run_main url root_dir treeRes env fs0).treeQueried = false
    ∧ (run_main url root_dir treeRes env fs0).fsFinal = fs0
    ∧ (run_main url root_dir treeRes env fs0).unhandled = true := by
  have h3 : (path_parts url)[3]? = none := List.getElem?_eq_none (by omega)
  have hp : parse_github_url url = .error .indexError := by
    unfold parse_github_url parse_from_parts
    rcases h0 : (path_parts url)[0]? <;> rcases h1 : (path_parts url)[1]? <;>
      simp [h0, h1, h3]
  refine ⟨hp, ?_, ?_, ?_⟩ <;> simp [run_main, hp]

/-- Witness for C7 at a two-segment URL. -/
theorem parse_github_url_too_few_segments_witness :
    (path_parts "https://github.com/acme/widgets").length < 4
    ∧ (parse_github_url "https://github.com/acme/widgets"
          = .error .indexError
       ∧ (run_main "https://github.com/acme/widgets" "out"
            (.response 200 []) exEnvDown fsEmpty).treeQueried = false
       ∧ (run_main "https://github.com/acme/widgets" "out"
            (.response 200 []) exEnvDown fsEmpty).fsFinal = fsEmpty
       ∧ (run_main "https://github.com/acme/widgets" "out"
            (.response 200 []) exEnvDown fsEmpty).unhandled = true) :=
  ⟨by decide, parse_github_url_too_few_segments _ "out" _ exEnvDown fsEmpty
    (by decide)⟩

/-- C9. A URL of the shape `https://host/owner/repo/tree/branch` — the
subfolder segments missing — still parses, with an empty subfolder, and the
empty subfolder prefix then keeps every blob of the tree. -/
theorem parse_github_url_missing_subfolder (url : String) (o r m b : String)
    (h : path_parts url = [o, r, m, b]) :
    parse_github_url url = .ok (o ++ "/" ++ r, b, "")
    ∧ ∀ tree : List TreeEntry,
        files_to_fetch "" tree = tree.filter (fun i => i.type == "blob") := by
  refine ⟨?_, files_to_fetch_empty_prefix⟩
  unfold parse_github_url parse_from_parts
  rw [h]
  simp [List.getElem?_cons_zero, List.getElem?_cons_succ, joinSlash]

/-- Witness for C9 at a branch-only URL. -/
theorem parse_github_url_missing_subfolder_witness :
    parse_github_url "https://github.com/acme/widgets/tree/main"
        = .ok ("acme/widgets", "main", "")
    ∧ files_to_fetch "" exTree = exTree.filter (fun i => i.type == "blob") :=
  ⟨(parse_github_url_missing_subfolder
      "https://github.com/acme/widgets/tree/main"
      "acme" "widgets" "tree" "main" rfl).1,
   (parse_github_url_missing_subfolder
      "https://github.com/acme/widgets/tree/main"
      "acme" "widgets" "tree" "main" rfl).2 exTree⟩

/-- C10. Two URLs whose path segments agree everywhere except possibly at
index 2 — the literal marker position, which the parser skips without
validating — parse to identical results. -/
theorem parse_github_url_marker_ignored (u1 u2 : String)
    (htake : (path_parts u1).take 2 = (path_parts u2).take 2)
    (hdrop : (path_parts u1).drop 3 = (path_parts u2).drop 3) :
    parse_github_url u1 = parse_github_url u2 := by
  have h0 : (path_parts u1)[0]? = (path_parts u2)[0]? := by
    have := congrArg (fun l => l[0]?) htake
    simpa [List.getElem?_take] using this
  have h1 : (path_parts u1)[1]? = (path_parts u2)[1]? := by
    have := congrArg (fun l => l[1]?) htake
    simpa [List.getElem?_take] using this
  have h3 : (path_parts u1)[3]? = (path_parts u2)[3]? := by
    have := congrArg (fun l => l[0]?) hdrop
    simpa [List.getElem?_drop] using this
  have h4 : (path_parts u1).drop 4 = (path_parts u2).drop 4 := by
    have := congrArg (List.drop 1) hdrop
    simpa [List.drop_drop] using this
  unfold parse_github_url parse_from_parts
  rw [h0, h1, h3, h4]

/-- C2. Over a dispatched batch (tree response 200) whose destination paths
are distinct, the progress counter ends exactly at the number of tasks —
each task bumps it once, success or failure — and every task whose fetch
succeeded with nonempty content is persisted, no matter how the other tasks
fared. -/
theorem fetch_files_progress_and_persistence (cfg : FetchConfig)
    (env : String → HttpResult) (fs0 : FileSystem) (tree : List TreeEntry)
    (hnd : ((files_to_fetch cfg.subfolder tree).map
        (fun i => os_path_join cfg.root_dir i.path)).Nodup) :
    (fetch_files cfg (.response 200 tree) env fs0).tasks
        = files_to_fetch cfg.subfolder tree
    ∧ (fetch_files cfg (.response 200 tree) env fs0).state.progress
        = (files_to_fetch cfg.subfolder tree).length
    ∧ ∀ item ∈ files_to_fetch cfg.subfolder tree, ∀ c : String,
        env (raw_url cfg.reponame cfg.branch item.path)
            = HttpResult.response 200 c →
        c ≠ "" →
        fsRead (fetch_files cfg (.response 200 tree) env fs0).state.fs
          (os_path_join cfg.root_dir item.path) = some c := by
  by_cases hlen : (files_to_fetch cfg.subfolder tree).length = 0
  · have he : files_to_fetch cfg.subfolder tree = [] :=
      List.length_eq_zero.mp hlen
    refine ⟨by simp [fetch_files, hlen, he], by simp [fetch_files, hlen, he], ?_⟩
    intro item hmem
    rw [he] at hmem
    simp at hmem
  · have hred : fetch_files cfg (.response 200 tree) env fs0 =
        { tasks := files_to_fetch cfg.subfolder tree
          state := (files_to_fetch cfg.subfolder tree).foldl
            (process_file cfg env)
            { fs := fs0, progress := 0, logs := [] } } := by
      simp [fetch_files, hlen]
    refine ⟨by rw [hred], ?_, ?_⟩
    · rw [hred]
      simpa using foldl_process_progress cfg env
        (files_to_fetch cfg.subfolder tree) { fs := fs0, progress := 0, logs := [] }
    · intro item hmem c henv hc
      rw [hred]
      obtain ⟨s, t, hst⟩ := List.append_of_mem hmem
      have hnotin : ∀ j ∈ t, os_path_join cfg.root_dir j.path
          ≠ os_path_join cfg.root_dir item.path := by
        rw [hst, List.map_append, List.map_cons, List.nodup_append,
          List.nodup_cons] at hnd
        intro j hj e
        exact hnd.2.1.1 (e ▸ List.mem_map_of_mem _ hj)
      show ((files_to_fetch cfg.subfolder tree).foldl (process_file cfg env)
          { fs := fs0, progress := 0, logs := [] }).fs
          (os_path_join cfg.root_dir item.path) = some c
      rw [hst, List.foldl_append, List.foldl_cons,
        foldl_process_fs_other cfg env _ t _ hnotin,
        process_file_read_own cfg env _ item c henv hc]

/-- Witness for C2: the spec's example tree with `src/a.py` failing (404) and
`src/lib/b.py` succeeding; progress still reaches the task count and the
successful file is persisted. -/
theorem fetch_files_progress_and_persistence_witness :
    ((files_to_fetch exCfg.subfolder exTree).map
        (fun i => os_path_join exCfg.root_dir i.path)).Nodup
    ∧ (fetch_files exCfg (.response 200 exTree) exEnv fsEmpty).state.progress
        = (files_to_fetch exCfg.subfolder exTree).length
    ∧ fsRead (fetch_files exCfg (.response 200 exTree) exEnv fsEmpty).state.fs
        (os_path_join exCfg.root_dir "src/lib/b.py") = some "hello" :=
  ⟨by decide,
   (fetch_files_progress_and_persistence exCfg exEnv fsEmpty exTree
      (by decide)).2.1,
   (fetch_files_progress_and_persistence exCfg exEnv fsEmpty exTree
      (by decide)).2.2 ⟨"src/lib/b.py", "blob"⟩ (by decide) "hello"
      (by decide) (by decide)⟩

/-- C3. Round-trip: when the fetch of a file returns status 200 with nonempty
content, `process_file` persists exactly that content at
`root_dir/<path>`. -/
theorem process_file_roundtrip (cfg : FetchConfig) (env : String → HttpResult)
    (st : FetchState) (item : TreeEntry) (c : String)
    (henv : env (raw_url cfg.reponame cfg.branch item.path)
      = HttpResult.response 200 c)
    (hc : c ≠ "") :
    fsRead (process_file cfg env st item).fs
      (os_path_join cfg.root_dir item.path) = some c :=
  process_file_read_own cfg env st item c henv hc

/-- Witness for C3. -/
theorem process_file_roundtrip_witness :
    fsRead (process_file exCfg exEnv
        { fs := fsEmpty, progress := 0, logs := [] }
        ⟨"src/lib/b.py", "blob"⟩).fs
      (os_path_join exCfg.root_dir "src/lib/b.py") = some "hello" :=
  process_file_roundtrip exCfg exEnv
    { fs := fsEmpty, progress := 0, logs := [] }
    ⟨"src/lib/b.py", "blob"⟩ "hello" (by decide) (by decide)

/-- C4. On any per-file outcome that is not a 200 response — a bad status or
a transport failure — `get_file_content` returns no content plus exactly one
diagnostic; it is total over both failure constructors, so neither raises
past its boundary. -/
theorem get_file_content_failure_contained (url : String) (r : HttpResult)
    (h : httpStatus r ≠ some 200) :
    (get_file_content url r).1 = none
    ∧ (get_file_content url r).2.length = 1 := by
  cases r with
  | response s b =>
      have hs : s ≠ 200 := by simpa [httpStatus] using h
      simp [get_file_content, hs]
  | connError e => simp [get_file_content]

/-- Witness for C4 at a 404 response and at a connection failure. -/
theorem get_file_content_failure_contained_witness :
    httpStatus (HttpResult.response 404 "nf") ≠ some 200
    ∧ ((get_file_content "u" (HttpResult.response 404 "nf")).1 = none
       ∧ (get_file_content "u" (HttpResult.response 404 "nf")).2.length = 1) :=
  ⟨by decide, get_file_content_failure_contained "u"
    (HttpResult.response 404 "nf") (by decide)⟩

/-- C5. When the tree query returns a non-200 status, the run dispatches no
fetch tasks, writes nothing, and the counter stays at zero. -/
theorem tree_non200_no_tasks_no_writes (url root_dir : String) (status : Nat)
    (tree : List TreeEntry) (env : String → HttpResult) (fs0 : FileSystem)
    (h : status ≠ 200) :
    (run_main url root_dir (.response status tree) env fs0).tasks = []
    ∧ (run_main url root_dir (.response status tree) env fs0).fsFinal = fs0
    ∧ (run_main url root_dir (.response status tree) env fs0).progress = 0 := by
  cases hp : parse_github_url url with
  | error e => refine ⟨?_, ?_, ?_⟩ <;> simp [run_main, hp]
  | ok v =>
      obtain ⟨rn, br, sf⟩ := v
      refine ⟨?_, ?_, ?_⟩ <;> simp [run_main, hp, fetch_files, h]

/-- Witness for C5 at a 404 tree response. -/
theorem tree_non200_no_tasks_no_writes_witness :
    (404 : Nat) ≠ 200
    ∧ ((run_main "https://github.com/acme/widgets/tree/main/src" "out"
          (.response 404 exTree) exEnv fsEmpty).tasks = []
       ∧ (run_main "https://github.com/acme/widgets/tree/main/src" "out"
          (.response 404 exTree) exEnv fsEmpty).fsFinal = fsEmpty
       ∧ (run_main "https://github.com/acme/widgets/tree/main/src" "out"
          (.response 404 exTree) exEnv fsEmpty).progress = 0) :=
  ⟨by decide, tree_non200_no_tasks_no_writes _ "out" 404 exTree exEnv fsEmpty
    (by decide)⟩

/-- C8 as stated is false: the counterexample run's tree query fails with
404, yet no exception escapes `main` (`unhandled = false`), because
`fetch_files` catches every tree failure; the process exits zero. -/
theorem tree_failure_exits_zero_counterexample :
    treeFails (TreeResult.response 404 []) = true
    ∧ (run_main "https://github.com/acme/widgets/tree/main/src" "out"
        (TreeResult.response 404 []) exEnvDown fsEmpty).unhandled = false :=
  ⟨rfl, rfl⟩

/-- C8 amended: on a well-formed URL, a failed tree query (non-200 or
connection failure) still ends the run early — no tasks, no writes, counter
at zero — but the failure is caught and logged inside `fetch_files`, so no
error escapes and the process exits normally (exit code zero). -/
theorem tree_failure_caught_and_logged (url root_dir : String)
    (treeRes : TreeResult) (env : String → HttpResult) (fs0 : FileSystem)
    (hok : (parse_github_url url).isOk = true)
    (hfail : treeFails treeRes = true) :
    (run_main url root_dir treeRes env fs0).tasks = []
    ∧ (run_main url root_dir treeRes env fs0).fsFinal = fs0
    ∧ (run_main url root_dir treeRes env fs0).unhandled = false
    ∧ (run_main url root_dir treeRes env fs0).logs ≠ [] := by
  cases hp : parse_github_url url with
  | error e => rw [hp] at hok; simp [Except.isOk, Except.toBool] at hok
  | ok v =>
      obtain ⟨rn, br, sf⟩ := v
      cases treeRes with
      | response s t =>
          have hs : s ≠ 200 := by simpa [treeFails] using hfail
          refine ⟨?_, ?_, ?_, ?_⟩ <;> simp [run_main, hp, fetch_files, hs]
      | connError e =>
          refine ⟨?_, ?_, ?_, ?_⟩ <;> simp [run_main, hp, fetch_files]

/-- Witness for the amended C8. -/
theorem tree_failure_caught_and_logged_witness :
    (parse_github_url "https://github.com/acme/widgets/tree/main/src").isOk
        = true
    ∧ treeFails (TreeResult.connError "cannot connect") = true
    ∧ ((run_main "https://github.com/acme/widgets/tree/main/src" "out"
          (TreeResult.connError "cannot connect") exEnv fsEmpty).tasks = []
       ∧ (run_main "https://github.com/acme/widgets/tree/main/src" "out"
          (TreeResult.connError "cannot connect") exEnv fsEmpty).fsFinal
            = fsEmpty
       ∧ (run_main "https://github.com/acme/widgets/tree/main/src" "out"
          (TreeResult.connError "cannot connect") exEnv fsEmpty).unhandled
            = false
       ∧ (run_main "https://github.com/acme/widgets/tree/main/src" "out"
          (TreeResult.connError "cannot connect") exEnv fsEmpty).logs ≠ []) :=
  ⟨by decide, by decide,
   tree_failure_caught_and_logged _ "out" _ exEnv fsEmpty (by decide)
     (by decide)⟩

/-- Witness for C10: `tree` versus `blob` at the marker position. -/
theorem parse_github_url_marker_ignored_witness :
    (path_parts "https://github.com/acme/widgets/tree/main/src").take 2
        = (path_parts "https://github.com/acme/widgets/blob/main/src").take 2
    ∧ (path_parts "https://github.com/acme/widgets/tree/main/src").drop 3
        = (path_parts "https://github.com/acme/widgets/blob/main/src").drop 3
    ∧ parse_github_url "https://github.com/acme/widgets/tree/main/src"
        = parse_github_url "https://github.com/acme/widgets/blob/main/src" :=
  ⟨rfl, rfl,
   parse_github_url_marker_ignored
     "https://github.com/acme/widgets/tree/main/src"
     "https://github.com/acme/widgets/blob/main/src" rfl rfl⟩

end Subgit
